import Mathlib

/-!
Verification of `mmworkbench/components/classifier.py` (the base classifier of the
Workbench NLU pipeline): the `ClassifierConfig` value object, the composite model
hash, and the `Classifier` lifecycle controller (`fit` / `predict` / `predict_proba`
/ `evaluate` / `dump` / `load`).

The Python code is shallowly embedded: Python values appearing in configurations
are modelled by `PyVal`; stateful methods become explicit state-passing functions
over `ClfState` (controller attributes) and `FS` (the files the controller touches);
exceptions become `Except PyExc`; calls into external collaborators (the model
capability, the resource loader, `hashlib`, `ModelConfig`'s constructor) are
supplied by an `Env` record of abstract functions.
-/

set_option maxHeartbeats 1000000

/-- A Python value as it can appear in classifier configurations: `None`, booleans,
integers, strings, sequences (Python lists and tuples are both serialized as JSON
arrays, so both are modelled by `.list`) and string-keyed mappings (Python dicts,
modelled as association lists in insertion order).  Floats and callables are not
needed by any claim and are omitted. -/
inductive PyVal where
  | none : PyVal
  | bool : Bool → PyVal
  | int : Int → PyVal
  | str : String → PyVal
  | list : List PyVal → PyVal
  | dict : List (String × PyVal) → PyVal

/-- Python truthiness of a `PyVal` (`bool(v)`). -/
def PyVal.truthy : PyVal → Bool
  | .none => false
  | .bool b => b
  | .int n => n != 0
  | .str s => s != ""
  | .list xs => !xs.isEmpty
  | .dict kvs => !kvs.isEmpty

/-- Python's `v is None`. -/
def PyVal.isNone : PyVal → Bool
  | .none => true
  | _ => false

/-- Lookup in an association list by key, first match (Python dicts have unique
keys, so this is dict indexing). -/
def assocGet {β : Type _} (l : List (String × β)) (k : String) : Option β :=
  (l.find? (fun kv => kv.1 == k)).map (fun kv => kv.2)

/-- Python `d.get(k)`: the value at `k`, or `None` when absent. -/
def dictGetD (kvs : List (String × PyVal)) (k : String) : PyVal :=
  (assocGet kvs k).getD .none

/-- Python `d[k] = v` on a dict: overwrite in place if the key exists, else append
(preserving insertion order, as Python dicts do). -/
def dictSet (kvs : List (String × PyVal)) (k : String) (v : PyVal) :
    List (String × PyVal) :=
  if kvs.any (fun kv => kv.1 == k) then
    kvs.map (fun kv => if kv.1 == k then (k, v) else kv)
  else
    kvs ++ [(k, v)]

/-- Python `base.update(upd)` on dicts. -/
def dictUpdate (base upd : List (String × PyVal)) : List (String × PyVal) :=
  upd.foldl (fun b kv => dictSet b kv.1 kv.2) base

/-- Python `d.pop(k, None)`: the dict with key `k` removed. -/
def dictPop (kvs : List (String × PyVal)) (k : String) : List (String × PyVal) :=
  kvs.filter (fun kv => kv.1 != k)

/-- The keys of a dict are pairwise distinct (always true of a real Python dict). -/
def keysNodup : List (String × PyVal) → Bool
  | [] => true
  | (k, _) :: rest => rest.all (fun kv => kv.1 != k) && keysNodup rest

mutual

/-- Well-formedness of a `PyVal` as the image of a real Python value: every dict
appearing in it has pairwise-distinct keys. -/
def PyVal.wf : PyVal → Bool
  | .none => true
  | .bool _ => true
  | .int _ => true
  | .str _ => true
  | .list xs => PyVal.wfList xs
  | .dict kvs => keysNodup kvs && PyVal.wfEntries kvs

/-- `PyVal.wf` on each element of a list. -/
def PyVal.wfList : List PyVal → Bool
  | [] => true
  | x :: xs => x.wf && PyVal.wfList xs

/-- `PyVal.wf` on each value of a dict. -/
def PyVal.wfEntries : List (String × PyVal) → Bool
  | [] => true
  | (_, v) :: kvs => v.wf && PyVal.wfEntries kvs

end

/-- Strict lexicographic comparison of character sequences by code point —
Python's `<` on strings. -/
def charListLt : List Char → List Char → Bool
  | [], [] => false
  | [], _ :: _ => true
  | _ :: _, [] => false
  | a :: as, b :: bs =>
      if a < b then true
      else if b < a then false
      else charListLt as bs

/-- Python's `<` on strings (code-point lexicographic). -/
def strLtB (a b : String) : Bool := charListLt a.data b.data

/-- Python's `<=` on strings. -/
def strLeB (a b : String) : Bool := !(strLtB b a)

/-- The key-comparison relation `sorted` applies to a dict's serialized items
(keys are unique in a Python dict, so the comparison never proceeds past the
key). -/
def entryLe (a b : String × String) : Prop := strLeB a.1 b.1 = true

/-- Strict version of `entryLe`. -/
def entryLt (a b : String × String) : Prop := strLtB a.1 b.1 = true

/-- Python's `sorted` on strings. -/
def strLe (a b : String) : Prop := strLeB a b = true

instance : DecidableRel entryLe := fun _ _ => inferInstanceAs (Decidable (_ = true))
instance : DecidableRel entryLt := fun _ _ => inferInstanceAs (Decidable (_ = true))
instance : DecidableRel strLe := fun _ _ => inferInstanceAs (Decidable (_ = true))

/-- Key-sort of already-serialized dict entries, mirroring
`json.dumps(..., sort_keys=True)`; `sorted` in Python is a stable comparison
sort, realized here by insertion sort. -/
def sortEntries (l : List (String × String)) : List (String × String) :=
  l.insertionSort entryLe

/-- Python's `sorted` on a list of strings. -/
def sortStrings (l : List String) : List String :=
  l.insertionSort strLe

/-- Rendering of one serialized dict entry, with `json.dumps`'s default `": "`
separator. -/
def renderEntry (kv : String × String) : String :=
  "\x22" ++ kv.1 ++ "\x22: " ++ kv.2

mutual

/-- `json.dumps(v, sort_keys=True)` with the default separators `", "`/`": "`.
Escaping of special characters inside strings is elided (configuration keys and
values are assumed escape-free); it plays no role in the claims, which only
compare serializations of related values. -/
def PyVal.dumps : PyVal → String
  | .none => "null"
  | .bool b => if b then "true" else "false"
  | .int n => toString n
  | .str s => "\x22" ++ s ++ "\x22"
  | .list xs => "[" ++ String.intercalate ", " (PyVal.dumpsList xs) ++ "]"
  | .dict kvs =>
      "\x7b" ++
        String.intercalate ", "
          ((sortEntries (PyVal.dumpsEntries kvs)).map renderEntry) ++
      "\x7d"

/-- `PyVal.dumps` on each element of a list. -/
def PyVal.dumpsList : List PyVal → List String
  | [] => []
  | x :: xs => x.dumps :: PyVal.dumpsList xs

/-- The items of a dict with each value serialized by `PyVal.dumps`. -/
def PyVal.dumpsEntries : List (String × PyVal) → List (String × String)
  | [] => []
  | (k, v) :: kvs => (k, v.dumps) :: PyVal.dumpsEntries kvs

end

/-- Find the first entry with key `k`, returning its value and the remaining list. -/
def extractKey (k : String) : List (String × PyVal) →
    Option (PyVal × List (String × PyVal))
  | [] => Option.none
  | (k2, v) :: rest =>
      if k2 == k then some (v, rest)
      else (extractKey k rest).map (fun p => (p.1, (k2, v) :: p.2))

mutual

/-- Structural identity of two Python values as `json.dumps` sees them: equal
atoms, sequences pointwise equivalent in order (list/tuple distinction already
erased in `PyVal`), dicts equal as key-value collections irrespective of
insertion order. -/
def pyEquiv : PyVal → PyVal → Bool
  | .none, .none => true
  | .bool a, .bool b => a == b
  | .int a, .int b => a == b
  | .str a, .str b => a == b
  | .list xs, .list ys => pyEquivList xs ys
  | .dict a, .dict b => pyEquivEntries a b
  | _, _ => false

/-- Pointwise `pyEquiv` on sequences. -/
def pyEquivList : List PyVal → List PyVal → Bool
  | [], [] => true
  | x :: xs, y :: ys => pyEquiv x y && pyEquivList xs ys
  | _, _ => false

/-- `pyEquiv` on dict entries: each entry of the left dict is matched (by key)
with an entry of the right dict, which is consumed. -/
def pyEquivEntries : List (String × PyVal) → List (String × PyVal) → Bool
  | [], [] => true
  | [], _ :: _ => false
  | (k, v) :: rest, b =>
      match extractKey k b with
      | some (w, b2) => pyEquiv v w && pyEquivEntries rest b2
      | Option.none => false

end

/-- Python exceptions that the embedded code can raise or catch. -/
inductive PyExc where
  | typeError (msg : String) : PyExc
  | valueError (msg : String) : PyExc
  | attributeError : PyExc
  | keyError (k : String) : PyExc
  | osError : PyExc
  | ioError : PyExc
  | eofError : PyExc
  | classifierLoadError (clsName : String) (path : String) : PyExc
  deriving DecidableEq

/-- The exception classes caught by `except (TypeError, ValueError)` in
`Classifier._get_model_config`. -/
def PyExc.isTypeOrValueError : PyExc → Bool
  | .typeError _ => true
  | .valueError _ => true
  | _ => false

/-- The exception classes caught by `except (OSError, IOError)` in
`Classifier.load` (in Python 3, `IOError` is an alias of `OSError`; both are kept
so the embedding matches the source text). -/
def PyExc.isOsOrIoError : PyExc → Bool
  | .osError => true
  | .ioError => true
  | _ => false

/-- `ClassifierConfig` (classifier.py lines 26-106): a value object holding the
five `__slots__` fields. -/
structure ClassifierConfig where
  model_type : PyVal
  features : PyVal
  model_settings : PyVal
  params : PyVal
  param_selection : PyVal

/-- The Python expression `param_selection is None or param_selection.get('grid')
is None`, evaluated only when `params is None`: `.get` on a non-dict, non-`None`
`param_selection` raises `AttributeError`. -/
def pselGridMissing : PyVal → Except PyExc Bool
  | .none => .ok true
  | .dict kvs => .ok (dictGetD kvs "grid").isNone
  | _ => .error .attributeError

/-- `ClassifierConfig.__init__` (lines 51-63): `TypeError` if `model_type` or
`features` is `None`; `ValueError` if `params is None and (param_selection is
None or param_selection.get('grid') is None)`; otherwise all five fields are
stored. -/
def ClassifierConfig.init (model_type features model_settings params
    param_selection : PyVal) : Except PyExc ClassifierConfig :=
  if model_type.isNone then
    .error (.typeError "missing required argument model_type")
  else if features.isNone then
    .error (.typeError "missing required argument features")
  else if params.isNone then
    match pselGridMissing param_selection with
    | .error e => .error e
    | .ok true =>
        .error (.valueError "One of params and param_selection is required")
    | .ok false =>
        .ok ⟨model_type, features, model_settings, params, param_selection⟩
  else .ok ⟨model_type, features, model_settings, params, param_selection⟩

/-- `ClassifierConfig.to_dict` (lines 65-74): the fields as a dict, in
`__slots__` order. -/
def ClassifierConfig.to_dict (c : ClassifierConfig) : List (String × PyVal) :=
  [("model_type", c.model_type), ("features", c.features),
   ("model_settings", c.model_settings), ("params", c.params),
   ("param_selection", c.param_selection)]

/-- `ClassifierConfig.to_json` (lines 87-88): `json.dumps(self.to_dict(),
sort_keys=True)`. -/
def ClassifierConfig.to_json (c : ClassifierConfig) : String :=
  PyVal.dumps (.dict c.to_dict)

/-- `ModelConfig` lives in the repository's `models` package, outside the base
classifier module.  Modelled from the spec: it exposes `to_dict` (an ordered
mapping of its fields, here `cfgDict`), `to_json` (its sorted-key JSON
canonicalization) and `required_resources()` (the resource names its feature
extractors depend on). -/
structure ModelConfig where
  cfgDict : List (String × PyVal)
  required : List String

/-- Modelled from the spec: `ModelConfig.to_json` is the configuration's
sorted-key JSON canonicalization. -/
def ModelConfig.to_json (mc : ModelConfig) : String :=
  PyVal.dumps (.dict mc.cfgDict)

/-- Modelled from the spec: `ModelConfig.required_resources()`. -/
def ModelConfig.required_resources (mc : ModelConfig) : List String :=
  mc.required

/-- The observable calls `Classifier.fit` makes on its collaborators, in order. -/
inductive Event where
  | createModel : Event
  | queriesAndLabelsHash : Event
  | hashResource (r : String) : Event
  | loadCalled (path : String) : Event
  | getQueriesAndLabels : Event
  | initializeResources : Event
  | modelFit : Event
  deriving DecidableEq

/-- The external collaborators of the classifier: the model capability
(`create_model` and the model objects it yields), the resource-loading
collaborator, `hashlib` digests, and `ModelConfig`'s constructor.  `Model` is
the opaque trained-artifact type and `Query` the structured example type.
`sha1hex` models a SHA-1 object fed a sequence of chunks: the digest is a
function of the list of `update`d chunks. -/
structure Env (Model Query Prob Eval : Type) where
  modelConfigCtor : List (String × PyVal) → Except PyExc ModelConfig
  createModel : ModelConfig → Model
  configOf : Model → ModelConfig
  initResourcesFit : Model → List Query → List String → Model
  initResourcesLoad : Model → Model
  fitModel : Model → List Query → List String → Model
  predictModel : Model → Query → String
  predictProbaModel : Model → Query → List (String × Prob)
  probLe : Prob → Prob → Bool
  evaluateModel : Model → List Query → List String → Eval
  getQueriesAndLabels : Option (List Query) → String → List Query × List String
  queriesAndLabelsHash : Option (List Query) → String → String
  hashFeatureResource : String → String
  createQuery : String → Query
  sha1hex : List String → String
  clsName : String

/-- The attributes `Classifier.__init__` (lines 120-131) sets on the controller. -/
structure ClfState (Model : Type) where
  _model : Option Model
  ready : Bool
  dirty : Bool
  config : Option ClassifierConfig
  hash : String

/-- A freshly constructed controller (lines 126-131). -/
def initState (Model : Type) : ClfState Model :=
  ⟨Option.none, false, false, Option.none, ""⟩

/-- What `joblib.load` does at a stored artifact file: yield the pickled object
(possibly `None`), or raise.  A nonexistent file raises `FileNotFoundError`
(an `OSError`); a truncated or corrupt pickle raises e.g. `EOFError` or an
unpickling error, which is not an `OSError`. -/
inductive BlobEntry (Model : Type) where
  | valid (m : Option Model) : BlobEntry Model
  | raises (e : PyExc) : BlobEntry Model

/-- The files the controller touches: serialized artifacts (via `joblib`) and
plain-text sidecar files. -/
structure FS (Model : Type) where
  blobs : List (String × BlobEntry Model)
  texts : List (String × String)

/-- Overwrite-or-add for the file-system maps (only lookup order is ever
observed, so the newest entry is simply put in front). -/
def fsSet {β : Type _} (l : List (String × β)) (k : String) (v : β) :
    List (String × β) :=
  (k, v) :: l.filter (fun kv => kv.1 != k)

/-- `Classifier._load_hash` (lines 345-352): read `path + '.hash'`, or return
`''` when the sidecar file does not exist. -/
def loadHash {Model : Type} (fs : FS Model) (path : String) : String :=
  match assocGet fs.texts (path ++ ".hash") with
  | Option.none => ""
  | some s => s

/-- `ClassifierConfig.from_model_config` (lines 80-85): take the model config's
dict, `pop` `example_type` and `label_type` (a `KeyError` if absent), and pass
the rest to `ClassifierConfig.__init__` as keyword arguments (an unexpected key
is a `TypeError`; a missing one defaults to `None`). -/
def fromModelConfig (d : List (String × PyVal)) : Except PyExc ClassifierConfig :=
  if !(d.any (fun kv => kv.1 == "example_type")) then .error (.keyError "example_type")
  else if !(d.any (fun kv => kv.1 == "label_type")) then .error (.keyError "label_type")
  else
    let d2 := dictPop (dictPop d "example_type") "label_type"
    if d2.any (fun kv => !(["model_type", "features", "model_settings", "params",
        "param_selection"].contains kv.1)) then
      .error (.typeError "unexpected keyword argument")
    else
      ClassifierConfig.init (dictGetD d2 "model_type") (dictGetD d2 "features")
        (dictGetD d2 "model_settings") (dictGetD d2 "params")
        (dictGetD d2 "param_selection")

/-- `Classifier._get_model_config` (lines 284-304) after Python has bound the
`loaded_config` positional from the keyword arguments: first try
`ModelConfig(**kwargs)`; on `TypeError`/`ValueError`, merge the kwargs into the
loaded config (`.update`), drop `params` when a `param_selection` override came
without `params`, and construct from the merged dict.  Calling `.update` /
`.pop` on a non-dict `loaded_config` raises `AttributeError`. -/
def getModelConfig {Model Query Prob Eval : Type} (env : Env Model Query Prob Eval)
    (loaded_config : PyVal) (kwargs : List (String × PyVal)) :
    Except PyExc ModelConfig :=
  match env.modelConfigCtor kwargs with
  | .ok mc => .ok mc
  | .error e =>
      if e.isTypeOrValueError then
        match loaded_config with
        | .dict lc =>
            let merged := dictUpdate lc kwargs
            let merged :=
              if (dictGetD kwargs "param_selection").truthy &&
                  !(dictGetD kwargs "params").truthy then
                dictPop merged "params"
              else merged
            env.modelConfigCtor merged
        | _ => .error .attributeError
      else .error e

/-- `Classifier._get_model_hash` (lines 416-445): a SHA-1 hash fed, in order,
the subclass digest of queries and labels, the configuration's JSON, and the
hex digest of a second SHA-1 hash fed the per-resource digests of the
configuration's required resources in `sorted` order. -/
def getModelHash {Model Query Prob Eval : Type} (env : Env Model Query Prob Eval)
    (model_config : ModelConfig) (queries : Option (List Query))
    (label_set : String) : String :=
  let hash_obj : List String := []
  let queries_hash := env.queriesAndLabelsHash queries label_set
  let hash_obj := hash_obj ++ [queries_hash]
  let hash_obj := hash_obj ++ [model_config.to_json]
  let rsc_hash : List String := []
  let rsc_hash := (sortStrings model_config.required_resources).foldl
    (fun acc r => acc ++ [env.hashFeatureResource r]) rsc_hash
  let hash_obj := hash_obj ++ [env.sha1hex rsc_hash]
  env.sha1hex hash_obj

/-- The collaborator calls `_get_model_hash` performs, in order. -/
def getModelHashEvents (model_config : ModelConfig) : List Event :=
  [Event.queriesAndLabelsHash] ++
    (sortStrings model_config.required_resources).map (fun r => Event.hashResource r)

/-- `Classifier.load` (lines 325-343): `joblib.load` the artifact, turning
`OSError`/`IOError` into a `ClassifierLoadError` naming the path (any other
exception propagates); if the loaded artifact is not `None`, re-initialize its
resources and re-derive `config`; read the sidecar hash; set `ready`, clear
`dirty`. -/
def load {Model Query Prob Eval : Type} (env : Env Model Query Prob Eval)
    (st : ClfState Model) (fs : FS Model) (path : String) :
    Except PyExc Unit × ClfState Model :=
  match assocGet fs.blobs path with
  | Option.none => (.error (.classifierLoadError env.clsName path), st)
  | some (.raises e) =>
      if e.isOsOrIoError then (.error (.classifierLoadError env.clsName path), st)
      else (.error e, st)
  | some (.valid m) =>
      match m with
      | Option.none =>
          (.ok (), { st with _model := Option.none, hash := loadHash fs path,
                             ready := true, dirty := false })
      | some model =>
          match fromModelConfig
              (env.configOf (env.initResourcesLoad model)).cfgDict with
          | .error e =>
              (.error e, { st with _model := some (env.initResourcesLoad model) })
          | .ok cfg =>
              (.ok (), { st with _model := some (env.initResourcesLoad model),
                                 config := some cfg, hash := loadHash fs path,
                                 ready := true, dirty := false })

/-- `Classifier.dump` (lines 306-323): serialize the artifact to `path`, write
the current digest to `path + '.hash'`, clear `dirty`. -/
def dump {Model : Type} (st : ClfState Model) (fs : FS Model) (path : String) :
    ClfState Model × FS Model :=
  let fs := { fs with blobs := fsSet fs.blobs path (.valid st._model) }
  let fs := { fs with texts := fsSet fs.texts (path ++ ".hash") st.hash }
  ({ st with dirty := false }, fs)

/-- `len(set(classes))`: the number of distinct labels. -/
def numDistinct : List String → Nat
  | [] => 0
  | x :: xs => (if xs.contains x then 0 else 1) + numDistinct xs

/-- The outcome of `Classifier.fit`: result or exception, the controller state,
the file system, and the ordered trace of collaborator calls made. -/
structure FitOut (Model : Type) where
  res : Except PyExc Unit
  st : ClfState Model
  fs : FS Model
  trace : List Event

/-- The cache-miss continuation of `Classifier.fit` (lines 206-218): resolve
queries and labels, no-op when fewer than two distinct labels, otherwise
initialize, fit, adopt the model, derive `config`, record the digest, set
`ready` and `dirty`. -/
def fitMiss {Model Query Prob Eval : Type} (env : Env Model Query Prob Eval)
    (st : ClfState Model) (fs : FS Model) (queries : Option (List Query))
    (label_set : String) (newHash : String) (model0 : Model) (tr : List Event) :
    FitOut Model :=
  let ql := env.getQueriesAndLabels queries label_set
  let tr := tr ++ [Event.getQueriesAndLabels]
  if numDistinct ql.2 ≤ 1 then ⟨.ok (), st, fs, tr⟩
  else
    let m1 := env.initResourcesFit model0 ql.1 ql.2
    let m2 := env.fitModel m1 ql.1 ql.2
    let tr := tr ++ [Event.initializeResources, Event.modelFit]
    match fromModelConfig (env.configOf m2).cfgDict with
    | .error e => ⟨.error e, { st with _model := some m2 }, fs, tr⟩
    | .ok cfg =>
        ⟨.ok (), { st with _model := some m2, config := some cfg,
                           hash := newHash, ready := true, dirty := true },
         fs, tr⟩

/-- `Classifier.fit` (lines 133-218).  `self._get_model_config(**kwargs)` binds
the required positional `loaded_config` from the keyword arguments, so a call
without a `loaded_config` keyword raises `TypeError` immediately.  Then the
model is created, the new digest computed, and if `previous_model_path` is
truthy and its sidecar digest equals the new digest, `load` is performed and
`fit` returns; otherwise the cache-miss continuation runs. -/
def fit {Model Query Prob Eval : Type} (env : Env Model Query Prob Eval)
    (st : ClfState Model) (fs : FS Model) (queries : Option (List Query))
    (label_set : String) (previous_model_path : Option String)
    (kwargs : List (String × PyVal)) : FitOut Model :=
  match assocGet kwargs "loaded_config" with
  | Option.none =>
      ⟨.error (.typeError "_get_model_config missing required positional argument"),
       st, fs, []⟩
  | some lc =>
      let kw := kwargs.filter (fun kv => kv.1 != "loaded_config")
      match getModelConfig env lc kw with
      | .error e => ⟨.error e, st, fs, []⟩
      | .ok model_config =>
          let model0 := env.createModel model_config
          let newHash := getModelHash env model_config queries label_set
          let tr0 := [Event.createModel] ++ getModelHashEvents model_config
          match previous_model_path with
          | some p =>
              if p ≠ "" then
                if loadHash fs p = newHash then
                  let r := load env st fs p
                  ⟨r.1, r.2, fs, tr0 ++ [Event.loadCalled p]⟩
                else fitMiss env st fs queries label_set newHash model0 tr0
              else fitMiss env st fs queries label_set newHash model0 tr0
          | Option.none => fitMiss env st fs queries label_set newHash model0 tr0

/-- `Classifier.predict` (lines 220-235): `None` (and no state change) when no
model is present; otherwise coerce a raw string to a `Query` and return the
model's top prediction. -/
def predict {Model Query Prob Eval : Type} (env : Env Model Query Prob Eval)
    (st : ClfState Model) (query : Query ⊕ String) : Option String :=
  match st._model with
  | Option.none => Option.none
  | some m =>
      let q := match query with
        | .inl q => q
        | .inr s => env.createQuery s
      some (env.predictModel m q)

/-- `Classifier.predict_proba` (lines 237-256): `None` when no model is present;
otherwise the model's label/probability pairs sorted by probability descending
(`sorted(..., key=lambda x: x[1], reverse=True)`, a stable sort). -/
def predict_proba {Model Query Prob Eval : Type} (env : Env Model Query Prob Eval)
    (st : ClfState Model) (query : Query ⊕ String) :
    Option (List (String × Prob)) :=
  match st._model with
  | Option.none => Option.none
  | some m =>
      let q := match query with
        | .inl q => q
        | .inr s => env.createQuery s
      let pairs := env.predictProbaModel m q
      some (pairs.insertionSort (fun a b => env.probLe b.2 a.2 = true))

/-- `Classifier.evaluate` (lines 258-282): `None` when no model is present;
resolve queries and labels; `None` when no queries were found; otherwise the
model's evaluation. -/
def evaluate {Model Query Prob Eval : Type} (env : Env Model Query Prob Eval)
    (st : ClfState Model) (queries : Option (List Query)) (label_set : String) :
    Option Eval :=
  match st._model with
  | Option.none => Option.none
  | some m =>
      let ql := env.getQueriesAndLabels queries label_set
      if ql.1.isEmpty then Option.none
      else some (env.evaluateModel m ql.1 ql.2)

/-- The readiness invariant of the spec: `ready` holds exactly when the artifact
reference is non-null. -/
def invB {Model : Type} (st : ClfState Model) : Bool :=
  st.ready == st._model.isSome

/-- Every artifact stored in the file system is a non-`None` model. -/
def goodFS {Model : Type} (fs : FS Model) : Bool :=
  fs.blobs.all (fun kv =>
    match kv.2 with
    | .valid Option.none => false
    | _ => true)

/-- The loaded artifact (after resource re-initialization) yields a
constructible `ClassifierConfig` — the condition for `load` to return normally
on a non-`None` artifact. -/
def loadCfgOkB {Model Query Prob Eval : Type} (env : Env Model Query Prob Eval)
    (st : ClfState Model) : Bool :=
  match st._model with
  | Option.none => true
  | some m =>
      match fromModelConfig (env.configOf (env.initResourcesLoad m)).cfgDict with
      | .ok _ => true
      | .error _ => false

/-- A demonstration `ModelConfig.to_dict` image: the full field dict including
the `example_type`/`label_type` tags that `from_model_config` pops. -/
def demoCfgDict : List (String × PyVal) :=
  [("example_type", .str "query"), ("label_type", .str "class"),
   ("model_type", .str "logreg"),
   ("features", .dict [("bag-of-words", .dict [])]),
   ("params", .dict [("C", .int 1)])]

/-- A demonstration model configuration with two required resources (unsorted). -/
def mc0 : ModelConfig := ⟨demoCfgDict, ["gaz", "abc"]⟩

/-- A small concrete collaborator environment (models are numbers, queries
units), used to evaluate the embedding on closed inputs. -/
def env0 : Env Nat Unit Unit Unit where
  modelConfigCtor := fun kw =>
    if kw.isEmpty then .ok mc0 else .error (.typeError "unexpected keyword")
  createModel := fun _ => 0
  configOf := fun _ => mc0
  initResourcesFit := fun m _ _ => m
  initResourcesLoad := fun m => m
  fitModel := fun m _ _ => m + 1
  predictModel := fun _ _ => "travel"
  predictProbaModel := fun _ _ => [("travel", ()), ("music", ())]
  probLe := fun _ _ => true
  evaluateModel := fun _ _ _ => ()
  getQueriesAndLabels := fun q _ => (q.getD [()], ["travel", "music"])
  queriesAndLabelsHash := fun _ _ => "qhash"
  hashFeatureResource := fun r => r ++ "-digest"
  createQuery := fun _ => ()
  sha1hex := fun chunks => String.intercalate "|" chunks
  clsName := "Classifier"

/-- `env0` with single-class training data. -/
def env1 : Env Nat Unit Unit Unit :=
  { env0 with getQueriesAndLabels := fun q _ => (q.getD [()], ["solo", "solo"]) }

/-- An empty file system. -/
def fs0 : FS Nat := ⟨[], []⟩

/-- A file system holding a truncated/corrupt artifact at `m`: `joblib.load`
on it raises `EOFError` (a truncated pickle raises `EOFError` or an unpickling
error, none of which is an `OSError`/`IOError`). -/
def fsCorrupt : FS Nat := ⟨[("m", .raises .eofError)], []⟩

/-- The digest `env0` computes for `mc0` with no supplied queries. -/
def hash0 : String := getModelHash env0 mc0 Option.none "train"

/-- A file system where path `m` holds a valid artifact whose sidecar digest
matches `hash0` — a cache hit for `fit(previous_model_path='m')`. -/
def fsHit : FS Nat := ⟨[("m", .valid (some 7))], [("m.hash", hash0)]⟩

/-- Keyword arguments carrying the `loaded_config` the base `fit` needs. -/
def kwargs0 : List (String × PyVal) := [("loaded_config", .dict [])]

/-- A demonstration configuration value object. -/
def cfgA : ClassifierConfig :=
  ⟨.str "logreg", .dict [("a", .int 1), ("b", .none)], .none,
   .dict [("C", .int 1)], .none⟩

/-- `cfgA` with the `features` mapping's entries in the opposite insertion
order — the same Python dict value in a differently ordered container. -/
def cfgB : ClassifierConfig :=
  ⟨.str "logreg", .dict [("b", .none), ("a", .int 1)], .none,
   .dict [("C", .int 1)], .none⟩

theorem pyval_smoke :
    PyVal.dumps (.dict [("b", .int 2), ("a", .list [.str "x", .none])]) =
      "\x7b\x22a\x22: [\x22x\x22, null], \x22b\x22: 2\x7d" := by decide

/-! ### Order lemmas: `charListLt` is the lexicographic order on char lists -/

theorem charListLt_iff : ∀ as bs : List Char,
    charListLt as bs = true ↔ List.Lex (fun x y : Char => x < y) as bs
  | [], [] =>
      iff_of_false (by simp [charListLt]) (fun h => nomatch h)
  | [], _ :: _ => iff_of_true rfl List.Lex.nil
  | _ :: _, [] =>
      iff_of_false (by simp [charListLt]) (fun h => nomatch h)
  | a :: as, b :: bs => by
      rcases lt_trichotomy a b with h | h | h
      · exact iff_of_true (by simp [charListLt, h]) (List.Lex.rel h)
      · subst h
        have heq : charListLt (a :: as) (a :: bs) = charListLt as bs := by
          simp [charListLt]
        rw [heq, charListLt_iff as bs]
        constructor
        · exact fun hx => List.Lex.cons hx
        · intro hx
          cases hx with
          | cons h2 => exact h2
          | rel h2 => exact absurd h2 (lt_irrefl a)
      · have h1 : ¬ a < b := lt_asymm h
        have heq : charListLt (a :: as) (b :: bs) = false := by
          simp [charListLt, h1, h]
        rw [heq]
        refine iff_of_false (by simp) (fun hx => ?_)
        cases hx with
        | cons h2 => exact absurd h (lt_irrefl _)
        | rel h2 => exact absurd h2 h1

theorem strLtB_iff (a b : String) :
    strLtB a b = true ↔ List.Lex (fun x y : Char => x < y) a.data b.data :=
  charListLt_iff _ _

theorem strLt_asymm {a b : String} (h1 : strLtB a b = true)
    (h2 : strLtB b a = true) : False := by
  haveI : IsAsymm Char (· < ·) := ⟨fun _ _ hx hy => absurd hy (lt_asymm hx)⟩
  exact (List.Lex.isAsymm (fun x y : Char => x < y)).asymm _ _
    ((strLtB_iff a b).mp h1) ((strLtB_iff b a).mp h2)

theorem strLeB_eq_true_iff (a b : String) :
    strLeB a b = true ↔ strLtB b a = false := by
  simp [strLeB]

theorem strLeB_total (a b : String) : strLeB a b = true ∨ strLeB b a = true := by
  rw [strLeB_eq_true_iff, strLeB_eq_true_iff]
  cases hx : strLtB b a with
  | false => exact Or.inl rfl
  | true =>
      cases hy : strLtB a b with
      | false => exact Or.inr rfl
      | true => exact (strLt_asymm hx hy).elim

theorem strLeB_trans {a b c : String} (h1 : strLeB a b = true)
    (h2 : strLeB b c = true) : strLeB a c = true := by
  haveI : IsTrichotomous Char (· < ·) := ⟨fun x y => lt_trichotomy x y⟩
  rw [strLeB_eq_true_iff] at h1 h2 ⊢
  by_contra hx
  have hx2 : strLtB c a = true := by
    cases h : strLtB c a with
    | false => exact absurd h hx
    | true => rfl
  have hadj : List.Lex (fun x y : Char => x < y) c.data a.data :=
    (strLtB_iff c a).mp hx2
  have hconn : List.Lex (fun x y : Char => x < y) c.data b.data ∨
      List.Lex (fun x y : Char => x < y) b.data a.data := by
    haveI : IsOrderConnected Char (· < ·) :=
      ⟨fun x y z hxz => by
        rcases lt_or_le x y with h | h
        · exact Or.inl h
        · exact Or.inr (lt_of_le_of_lt h hxz)⟩
    exact (List.Lex.isOrderConnected _).conn _ _ _ hadj
  rcases hconn with h | h
  · rw [(strLtB_iff c b).symm] at h
    rw [h] at h2
    exact absurd h2 (by simp)
  · rw [(strLtB_iff b a).symm] at h
    rw [h] at h1
    exact absurd h1 (by simp)

theorem dataNe_of_ne {a b : String} (h : a ≠ b) : a.data ≠ b.data :=
  fun hd => h (String.ext hd)

theorem strLeB_ne_lt {a b : String} (h : strLeB a b = true) (hne : a ≠ b) :
    strLtB a b = true := by
  haveI : IsTrichotomous Char (· < ·) := ⟨fun x y => lt_trichotomy x y⟩
  rcases (List.Lex.isTrichotomous (fun x y : Char => x < y)).trichotomous
      a.data b.data with h1 | h1 | h1
  · exact (strLtB_iff a b).mpr h1
  · exact absurd h1 (dataNe_of_ne hne)
  · rw [(strLtB_iff b a).symm] at h1
    rw [strLeB_eq_true_iff, h1] at h
    exact absurd h (by simp)

theorem entryLe_total_thm (x y : String × String) : entryLe x y ∨ entryLe y x :=
  strLeB_total x.1 y.1

theorem entryLe_trans_thm (x y z : String × String) :
    entryLe x y → entryLe y z → entryLe x z :=
  fun h1 h2 => strLeB_trans h1 h2

theorem entryLe_ne_lt {x y : String × String} (h : entryLe x y)
    (hne : x.1 ≠ y.1) : entryLt x y :=
  strLeB_ne_lt h hne

/-! ### Sorting lemmas for `sortEntries` and `sortStrings` -/

theorem sortEntries_perm (l : List (String × String)) :
    List.Perm (sortEntries l) l :=
  List.perm_insertionSort entryLe l

theorem sortEntries_sorted (l : List (String × String)) :
    List.Pairwise entryLe (sortEntries l) := by
  haveI : IsTotal (String × String) entryLe := ⟨entryLe_total_thm⟩
  haveI : IsTrans (String × String) entryLe := ⟨entryLe_trans_thm⟩
  exact List.sorted_insertionSort entryLe l

theorem sortStrings_perm (l : List String) : List.Perm (sortStrings l) l :=
  List.perm_insertionSort strLe l

theorem sortStrings_sorted (l : List String) :
    List.Pairwise strLe (sortStrings l) := by
  haveI : IsTotal String strLe := ⟨strLeB_total⟩
  haveI : IsTrans String strLe := ⟨fun _ _ _ h1 h2 => strLeB_trans h1 h2⟩
  exact List.sorted_insertionSort strLe l

theorem sortEntries_eq_of_perm {l1 l2 : List (String × String)}
    (hp : List.Perm l1 l2) (hnd : (l1.map Prod.fst).Nodup) :
    sortEntries l1 = sortEntries l2 := by
  haveI : IsAntisymm (String × String) entryLt :=
    ⟨fun x y h1 h2 => (strLt_asymm h1 h2).elim⟩
  have hperm : List.Perm (sortEntries l1) (sortEntries l2) :=
    (sortEntries_perm l1).trans (hp.trans (sortEntries_perm l2).symm)
  have hnd1 : ((sortEntries l1).map Prod.fst).Nodup :=
    (((sortEntries_perm l1).map Prod.fst).nodup_iff).mpr hnd
  have hnd2 : ((sortEntries l2).map Prod.fst).Nodup :=
    ((hperm.map Prod.fst).nodup_iff).mp hnd1
  have hs1 : List.Pairwise entryLt (sortEntries l1) := by
    have hand := (sortEntries_sorted l1).and (List.pairwise_map.mp hnd1)
    exact hand.imp (fun hab => entryLe_ne_lt hab.1 hab.2)
  have hs2 : List.Pairwise entryLt (sortEntries l2) := by
    have hand := (sortEntries_sorted l2).and (List.pairwise_map.mp hnd2)
    exact hand.imp (fun hab => entryLe_ne_lt hab.1 hab.2)
  exact List.eq_of_perm_of_sorted hperm hs1 hs2

/-! ### JSON canonicalization respects structural identity -/

theorem dumpsEntries_eq_map (l : List (String × PyVal)) :
    PyVal.dumpsEntries l = l.map (fun kv => (kv.1, PyVal.dumps kv.2)) := by
  induction l with
  | nil => rfl
  | cons kv rest ih =>
      cases kv with
      | mk k v => simp [PyVal.dumpsEntries, ih]

theorem dumpsEntries_map_fst (l : List (String × PyVal)) :
    (PyVal.dumpsEntries l).map Prod.fst = l.map Prod.fst := by
  rw [dumpsEntries_eq_map]
  simp

theorem keysNodup_iff (l : List (String × PyVal)) :
    keysNodup l = true ↔ (l.map Prod.fst).Nodup := by
  induction l with
  | nil => simp [keysNodup]
  | cons kv rest ih =>
      cases kv with
      | mk k v =>
          simp only [keysNodup, Bool.and_eq_true, List.all_eq_true, List.map_cons,
            List.nodup_cons, List.mem_map, ih]
          constructor
          · rintro ⟨h1, h2⟩
            refine ⟨?_, h2⟩
            rintro ⟨x, hx, hfst⟩
            have := h1 x hx
            simp at this
            exact this (by simpa using hfst)
          · rintro ⟨h1, h2⟩
            refine ⟨?_, h2⟩
            intro x hx
            simp only [bne_iff_ne, ne_eq]
            intro hfst
            exact h1 ⟨x, hx, hfst⟩

theorem extractKey_perm {k : String} :
    ∀ {b : List (String × PyVal)} {w : PyVal} {b2 : List (String × PyVal)},
      extractKey k b = some (w, b2) → List.Perm b ((k, w) :: b2)
  | [], _, _, h => by simp [extractKey] at h
  | (k2, v) :: rest, w, b2, h => by
      by_cases hk : k2 = k
      · subst hk
        simp [extractKey] at h
        obtain ⟨h1, h2⟩ := h
        subst h1
        subst h2
        exact List.Perm.refl _
      · rw [extractKey, if_neg (by simp [hk])] at h
        rcases hrec : extractKey k rest with _ | ⟨w3, b3⟩
        · rw [hrec] at h
          simp at h
        · rw [hrec] at h
          simp at h
          obtain ⟨h1, h2⟩ := h
          subst h1
          subst h2
          exact ((extractKey_perm hrec).cons (k2, v)).trans
            (List.Perm.swap (k, w3) (k2, v) b3)

mutual

theorem dumps_equiv : ∀ (a b : PyVal), pyEquiv a b = true → PyVal.wf a = true →
    PyVal.dumps a = PyVal.dumps b
  | a, b, h, hw => by
    cases a with
    | none =>
        cases b with
        | none => rfl
        | bool y => simp [pyEquiv] at h
        | int y => simp [pyEquiv] at h
        | str y => simp [pyEquiv] at h
        | list ys => simp [pyEquiv] at h
        | dict ys => simp [pyEquiv] at h
    | bool x =>
        cases b with
        | bool y => simp [pyEquiv] at h; subst h; rfl
        | none => simp [pyEquiv] at h
        | int y => simp [pyEquiv] at h
        | str y => simp [pyEquiv] at h
        | list ys => simp [pyEquiv] at h
        | dict ys => simp [pyEquiv] at h
    | int x =>
        cases b with
        | int y => simp [pyEquiv] at h; subst h; rfl
        | none => simp [pyEquiv] at h
        | bool y => simp [pyEquiv] at h
        | str y => simp [pyEquiv] at h
        | list ys => simp [pyEquiv] at h
        | dict ys => simp [pyEquiv] at h
    | str x =>
        cases b with
        | str y => simp [pyEquiv] at h; subst h; rfl
        | none => simp [pyEquiv] at h
        | bool y => simp [pyEquiv] at h
        | int y => simp [pyEquiv] at h
        | list ys => simp [pyEquiv] at h
        | dict ys => simp [pyEquiv] at h
    | list xs =>
        cases b with
        | list ys =>
            have h2 : pyEquivList xs ys = true := by simpa [pyEquiv] using h
            have hw2 : PyVal.wfList xs = true := by simpa [PyVal.wf] using hw
            have e := dumpsList_equiv xs ys h2 hw2
            simp [PyVal.dumps, e]
        | none => simp [pyEquiv] at h
        | bool y => simp [pyEquiv] at h
        | int y => simp [pyEquiv] at h
        | str y => simp [pyEquiv] at h
        | dict ys => simp [pyEquiv] at h
    | dict a2 =>
        cases b with
        | dict b2 =>
            have h2 : pyEquivEntries a2 b2 = true := by simpa [pyEquiv] using h
            have hw2 : keysNodup a2 = true ∧ PyVal.wfEntries a2 = true := by
              simpa [PyVal.wf, Bool.and_eq_true] using hw
            have hperm := dumpsEntries_equiv a2 b2 h2 hw2.2
            have hnd : ((PyVal.dumpsEntries a2).map Prod.fst).Nodup := by
              rw [dumpsEntries_map_fst]
              exact (keysNodup_iff a2).mp hw2.1
            have hsort := sortEntries_eq_of_perm hperm hnd
            simp [PyVal.dumps, hsort]
        | none => simp [pyEquiv] at h
        | bool y => simp [pyEquiv] at h
        | int y => simp [pyEquiv] at h
        | str y => simp [pyEquiv] at h
        | list ys => simp [pyEquiv] at h

theorem dumpsList_equiv : ∀ (xs ys : List PyVal), pyEquivList xs ys = true →
    PyVal.wfList xs = true → PyVal.dumpsList xs = PyVal.dumpsList ys
  | xs, ys, h, hw => by
    cases xs with
    | nil =>
        cases ys with
        | nil => rfl
        | cons y ys => simp [pyEquivList] at h
    | cons x xs =>
        cases ys with
        | nil => simp [pyEquivList] at h
        | cons y ys =>
            have h2 : pyEquiv x y = true ∧ pyEquivList xs ys = true := by
              simpa [pyEquivList, Bool.and_eq_true] using h
            have hw2 : PyVal.wf x = true ∧ PyVal.wfList xs = true := by
              simpa [PyVal.wfList, Bool.and_eq_true] using hw
            have e1 := dumps_equiv x y h2.1 hw2.1
            have e2 := dumpsList_equiv xs ys h2.2 hw2.2
            simp [PyVal.dumpsList, e1, e2]

theorem dumpsEntries_equiv : ∀ (a b : List (String × PyVal)),
    pyEquivEntries a b = true → PyVal.wfEntries a = true →
    List.Perm (PyVal.dumpsEntries a) (PyVal.dumpsEntries b)
  | a, b, h, hw => by
    cases a with
    | nil =>
        cases b with
        | nil => exact List.Perm.refl _
        | cons kv b => simp [pyEquivEntries] at h
    | cons kv rest =>
        cases kv with
        | mk k v =>
            rcases hE : extractKey k b with _ | ⟨w, b2⟩
            · rw [pyEquivEntries, hE] at h
              simp at h
            · rw [pyEquivEntries, hE] at h
              simp only [Bool.and_eq_true] at h
              have hw2 : PyVal.wf v = true ∧ PyVal.wfEntries rest = true := by
                simpa [PyVal.wfEntries, Bool.and_eq_true] using hw
              have e1 := dumps_equiv v w h.1 hw2.1
              have e2 := dumpsEntries_equiv rest b2 h.2 hw2.2
              have hb := extractKey_perm hE
              have hmap : List.Perm (PyVal.dumpsEntries b)
                  ((k, PyVal.dumps w) :: PyVal.dumpsEntries b2) := by
                rw [dumpsEntries_eq_map, dumpsEntries_eq_map]
                exact hb.map (fun kv => (kv.1, PyVal.dumps kv.2))
              rw [PyVal.dumpsEntries, e1]
              exact (e2.cons (k, PyVal.dumps w)).trans hmap.symm

end

/-! ### Small helper lemmas for the lifecycle theorems -/

theorem foldl_append_map {α β : Type _} (f : α → β) :
    ∀ (l : List α) (acc : List β),
      l.foldl (fun a r => a ++ [f r]) acc = acc ++ l.map f
  | [], acc => by simp
  | x :: xs, acc => by
      simp only [List.foldl_cons, List.map_cons]
      rw [foldl_append_map f xs (acc ++ [f x])]
      simp

theorem assocGet_fsSet_self {β : Type _} (l : List (String × β)) (k : String)
    (v : β) : assocGet (fsSet l k v) k = some v := by
  simp [assocGet, fsSet, List.find?]

theorem isNone_eq_false_iff {v : PyVal} : v.isNone = false ↔ v ≠ PyVal.none := by
  cases v <;> simp [PyVal.isNone]

theorem isNone_eq_true_iff {v : PyVal} : v.isNone = true ↔ v = PyVal.none := by
  cases v <;> simp [PyVal.isNone]

theorem goodFS_no_none {Model : Type} {fs : FS Model} {p : String}
    (hfs : goodFS fs = true)
    (hb : assocGet fs.blobs p = some (BlobEntry.valid (Option.none : Option Model))) :
    False := by
  unfold assocGet at hb
  rcases hfind : fs.blobs.find? (fun kv => kv.1 == p) with _ | kv
  · rw [hfind] at hb
    simp at hb
  · rw [hfind] at hb
    simp at hb
    have hmem := List.mem_of_find?_eq_some hfind
    have hall := (List.all_eq_true.mp hfs) _ hmem
    rw [hb] at hall
    simp at hall

theorem load_inv {Model Query Prob Eval : Type} (env : Env Model Query Prob Eval)
    (st : ClfState Model) (fs : FS Model) (p : String)
    (hfs : goodFS fs = true) (hok : (load env st fs p).1 = Except.ok ()) :
    invB (load env st fs p).2 = true := by
  rcases hb : assocGet fs.blobs p with _ | entry
  · simp [load, hb] at hok
  · rcases entry with m | e
    · rcases m with _ | model
      · exact (goodFS_no_none hfs hb).elim
      · rcases hcfg : fromModelConfig (env.configOf
            (env.initResourcesLoad model)).cfgDict with e2 | cfg
        · simp [load, hb, hcfg] at hok
        · simp [load, hb, hcfg, invB]
    · by_cases he : e.isOsOrIoError = true
      · simp [load, hb, he] at hok
      · simp [load, hb, he] at hok

theorem dump_then_load {Model Query Prob Eval : Type}
    (env : Env Model Query Prob Eval) (st st0 : ClfState Model) (fs : FS Model)
    (P : String) (hcfg : loadCfgOkB env st = true) :
    (load env st0 (dump st fs P).2 P).1 = Except.ok () ∧
    (load env st0 (dump st fs P).2 P).2.ready = true ∧
    (load env st0 (dump st fs P).2 P).2.dirty = false ∧
    (load env st0 (dump st fs P).2 P).2.hash = st.hash := by
  have hblob : assocGet (dump st fs P).2.blobs P = some (.valid st._model) := by
    simp [dump]
    exact assocGet_fsSet_self _ _ _
  have htext : loadHash (dump st fs P).2 P = st.hash := by
    simp [loadHash, dump]
    rw [assocGet_fsSet_self]
  rcases hm : st._model with _ | model
  · rw [hm] at hblob
    simp [load, hblob, htext]
  · rw [hm] at hblob
    unfold loadCfgOkB at hcfg
    rw [hm] at hcfg
    rcases hfc : fromModelConfig (env.configOf
        (env.initResourcesLoad model)).cfgDict with e | cfg
    · simp [hfc] at hcfg
    · simp [load, hblob, hfc, htext]

theorem getModelHashEvents_no_ql (mc : ModelConfig) :
    Event.getQueriesAndLabels ∉ getModelHashEvents mc := by
  intro h
  simp [getModelHashEvents] at h

theorem getModelHashEvents_no_fit (mc : ModelConfig) :
    Event.modelFit ∉ getModelHashEvents mc := by
  intro h
  simp [getModelHashEvents] at h

/-! ### The claims -/

/-- C2: `_get_model_hash` returns the hex digest of a running SHA-1 hash that is
fed, in this fixed order: (1) the subclass-supplied queries-and-labels digest,
(2) the configuration's sorted-key JSON canonicalization, (3) the hex digest of
a second SHA-1 hash that accumulated the resource loader's per-resource digest
for each required resource name taken in lexicographically sorted order (the
sorted list being a `strLe`-sorted permutation of the declared resources). -/
theorem getModelHash_feeds_fixed_sequence {Model Query Prob Eval : Type}
    (env : Env Model Query Prob Eval) (mc : ModelConfig)
    (queries : Option (List Query)) (label_set : String) :
    getModelHash env mc queries label_set =
      env.sha1hex [env.queriesAndLabelsHash queries label_set, mc.to_json,
        env.sha1hex ((sortStrings mc.required_resources).map
          env.hashFeatureResource)] ∧
    List.Pairwise strLe (sortStrings mc.required_resources) ∧
    List.Perm (sortStrings mc.required_resources) mc.required_resources := by
  refine ⟨?_, sortStrings_sorted _, sortStrings_perm _⟩
  simp [getModelHash, foldl_append_map]

/-- C3: two configurations whose five fields hold structurally identical values
(`pyEquiv`: mappings compared as key-value collections irrespective of entry
order, with the list/tuple container distinction already erased; sequences
compared pointwise; all nested), the first being a well-formed Python value
(distinct keys in every dict), have equal canonicalizations:
`c1.to_json() == c2.to_json()`. -/
theorem to_json_structural (c1 c2 : ClassifierConfig)
    (hmt : pyEquiv c1.model_type c2.model_type = true)
    (hft : pyEquiv c1.features c2.features = true)
    (hms : pyEquiv c1.model_settings c2.model_settings = true)
    (hps : pyEquiv c1.params c2.params = true)
    (hpsel : pyEquiv c1.param_selection c2.param_selection = true)
    (hwf : PyVal.wf (PyVal.dict c1.to_dict) = true) :
    c1.to_json = c2.to_json := by
  unfold ClassifierConfig.to_json
  apply dumps_equiv _ _ ?_ hwf
  simp [pyEquiv, pyEquivEntries, extractKey, ClassifierConfig.to_dict,
    hmt, hft, hms, hps, hpsel]

/-- Witness for C3 at concrete configurations differing in the insertion order
of the `features` mapping. -/
theorem to_json_structural_witness :
    pyEquiv cfgA.features cfgB.features = true ∧
    PyVal.wf (PyVal.dict cfgA.to_dict) = true ∧
    cfgA.to_json = cfgB.to_json :=
  ⟨by decide, by decide,
   to_json_structural cfgA cfgB (by decide) (by decide) (by decide) (by decide)
     (by decide) (by decide)⟩

/-- C4: `ClassifierConfig` construction raises `TypeError` when `model_type` or
`features` is `None`; past those checks it raises `ValueError` when `params` is
`None` and `param_selection` is `None` or lacks a non-null `'grid'`; and it
succeeds, storing all five fields, whenever `model_type` and `features` are
non-null and at least one of `params` or `param_selection['grid']` is present —
in particular when exactly one of the two parameter sources is present. -/
theorem classifier_config_init_validation (mt ft ms ps psel : PyVal) :
    ((mt = PyVal.none ∨ ft = PyVal.none) →
      ∃ m, ClassifierConfig.init mt ft ms ps psel =
        Except.error (PyExc.typeError m)) ∧
    (mt ≠ PyVal.none → ft ≠ PyVal.none → ps = PyVal.none →
      (psel = PyVal.none ∨
        ∃ kvs, psel = PyVal.dict kvs ∧ dictGetD kvs "grid" = PyVal.none) →
      ∃ m, ClassifierConfig.init mt ft ms ps psel =
        Except.error (PyExc.valueError m)) ∧
    (mt ≠ PyVal.none → ft ≠ PyVal.none →
      (ps ≠ PyVal.none ∨
        ∃ kvs, psel = PyVal.dict kvs ∧ dictGetD kvs "grid" ≠ PyVal.none) →
      ClassifierConfig.init mt ft ms ps psel =
        Except.ok ⟨mt, ft, ms, ps, psel⟩) := by
  refine ⟨?_, ?_, ?_⟩
  · intro h
    by_cases hmt : mt.isNone = true
    · exact ⟨_, by rw [ClassifierConfig.init, if_pos hmt]⟩
    · have hftn : ft = PyVal.none := by
        rcases h with h | h
        · exact absurd (isNone_eq_true_iff.mpr h) hmt
        · exact h
      subst hftn
      exact ⟨_, by rw [ClassifierConfig.init, if_neg hmt,
        if_pos (show PyVal.none.isNone = true from rfl)]⟩
  · intro hmt hft hps hsel
    have hmtb : mt.isNone = false := isNone_eq_false_iff.mpr hmt
    have hftb : ft.isNone = false := isNone_eq_false_iff.mpr hft
    subst hps
    refine ⟨"One of params and param_selection is required", ?_⟩
    rcases hsel with rfl | ⟨kvs, rfl, hgrid⟩
    · simp [ClassifierConfig.init, hmtb, hftb, PyVal.isNone, pselGridMissing]
    · simp [ClassifierConfig.init, hmtb, hftb, PyVal.isNone, pselGridMissing,
        hgrid]
  · intro hmt hft hor
    have hmtb : mt.isNone = false := isNone_eq_false_iff.mpr hmt
    have hftb : ft.isNone = false := isNone_eq_false_iff.mpr hft
    by_cases hpsn : ps = PyVal.none
    · subst hpsn
      rcases hor with h | ⟨kvs, rfl, hgrid⟩
      · exact absurd rfl h
      · have hgb : (dictGetD kvs "grid").isNone = false :=
          isNone_eq_false_iff.mpr hgrid
        simp [ClassifierConfig.init, hmtb, hftb, PyVal.isNone, pselGridMissing,
          hgb]
    · have hpsb : ps.isNone = false := isNone_eq_false_iff.mpr hpsn
      simp [ClassifierConfig.init, hmtb, hftb, hpsb]

/-- Witness for C4: a missing `model_type` raises `TypeError`; `params` and
`param_selection` both absent raises `ValueError`; exactly one parameter source
(fixed `params`) suffices for success with all fields stored. -/
theorem classifier_config_init_validation_witness :
    (∃ m, ClassifierConfig.init PyVal.none (.dict []) .none (.dict []) .none =
      Except.error (PyExc.typeError m)) ∧
    (∃ m, ClassifierConfig.init (.str "logreg") (.dict []) .none .none .none =
      Except.error (PyExc.valueError m)) ∧
    ClassifierConfig.init (.str "logreg") (.dict []) .none
        (.dict [("C", .int 1)]) .none =
      Except.ok ⟨.str "logreg", .dict [], .none, .dict [("C", .int 1)], .none⟩ :=
  ⟨(classifier_config_init_validation PyVal.none (.dict []) .none (.dict [])
      .none).1 (Or.inl rfl),
   (classifier_config_init_validation (.str "logreg") (.dict []) .none .none
      .none).2.1 (fun h => nomatch h) (fun h => nomatch h) rfl (Or.inl rfl),
   (classifier_config_init_validation (.str "logreg") (.dict []) .none
      (.dict [("C", .int 1)]) .none).2.2 (fun h => nomatch h)
      (fun h => nomatch h) (Or.inl (fun h => nomatch h))⟩

/-- C9: on a freshly constructed (unfit) controller, `predict`, `predict_proba`
and `evaluate` each return `None` and raise nothing; as in the source, these
methods never assign any controller attribute, so the embedded functions read
but do not produce a state — the state is unchanged by construction. -/
theorem unfit_calls_return_none {Model Query Prob Eval : Type}
    (env : Env Model Query Prob Eval) (q1 q2 : Query ⊕ String)
    (queries : Option (List Query)) (label_set : String) :
    predict env (initState Model) q1 = Option.none ∧
    predict_proba env (initState Model) q2 = Option.none ∧
    evaluate env (initState Model) queries label_set = Option.none :=
  ⟨rfl, rfl, rfl⟩

/-- C10: the base-class `fit` calls `self._get_model_config(**kwargs)` although
`_get_model_config` requires `loaded_config` as a positional argument, so every
call whose keyword overrides lack `'loaded_config'` raises `TypeError` at that
call — before computing any digest, before any cache check or collaborator
call (empty trace), and without changing controller or file-system state. -/
theorem fit_missing_loaded_config_raises {Model Query Prob Eval : Type}
    (env : Env Model Query Prob Eval) (st : ClfState Model) (fs : FS Model)
    (queries : Option (List Query)) (label_set : String)
    (pmp : Option String) (kwargs : List (String × PyVal))
    (hk : assocGet kwargs "loaded_config" = Option.none) :
    ∃ m, fit env st fs queries label_set pmp kwargs =
      ⟨Except.error (PyExc.typeError m), st, fs, []⟩ :=
  ⟨_, by rw [fit, hk]⟩

/-- Witness for C10 at empty keyword arguments. -/
theorem fit_missing_loaded_config_raises_witness :
    assocGet ([] : List (String × PyVal)) "loaded_config" = Option.none ∧
    ∃ m, fit env0 (initState Nat) fs0 Option.none "train" Option.none [] =
      ⟨Except.error (PyExc.typeError m), initState Nat, fs0, []⟩ :=
  ⟨rfl, fit_missing_loaded_config_raises env0 (initState Nat) fs0 Option.none
    "train" Option.none [] rfl⟩

/-- C8: past the cache check (no previous path given, a falsy previous path, or
a sidecar digest different from the new digest), a `fit` whose resolved
training data has fewer than two distinct labels returns normally and leaves
the controller state — `_model`, `ready`, `dirty`, `config`, `hash` — and the
file system entirely unchanged. -/
theorem fit_single_class_noop {Model Query Prob Eval : Type}
    (env : Env Model Query Prob Eval) (st : ClfState Model) (fs : FS Model)
    (queries : Option (List Query)) (label_set : String)
    (pmp : Option String) (kwargs : List (String × PyVal)) (lc : PyVal)
    (mc : ModelConfig)
    (hk : assocGet kwargs "loaded_config" = some lc)
    (hmc : getModelConfig env lc
      (kwargs.filter (fun kv => kv.1 != "loaded_config")) = Except.ok mc)
    (hmiss : pmp = Option.none ∨ ∃ p, pmp = some p ∧ (p = "" ∨
      loadHash fs p ≠ getModelHash env mc queries label_set))
    (hone : numDistinct (env.getQueriesAndLabels queries label_set).2 ≤ 1) :
    fit env st fs queries label_set pmp kwargs =
      ⟨Except.ok (), st, fs, [Event.createModel] ++ getModelHashEvents mc ++
        [Event.getQueriesAndLabels]⟩ := by
  rcases hmiss with rfl | ⟨p, rfl, hp⟩
  · simp [fit, hk, hmc, fitMiss, hone]
  · rcases hp with rfl | hp
    · simp [fit, hk, hmc, fitMiss, hone]
    · simp [fit, hk, hmc, fitMiss, hone, hp]

/-- Witness for C8: single-class training data (environment `env1`) with no
previous model path leaves a fresh controller unchanged. -/
theorem fit_single_class_noop_witness :
    assocGet kwargs0 "loaded_config" = some (.dict []) ∧
    getModelConfig env1 (.dict [])
      (kwargs0.filter (fun kv => kv.1 != "loaded_config")) = Except.ok mc0 ∧
    numDistinct ((env1.getQueriesAndLabels Option.none "train").2) ≤ 1 ∧
    fit env1 (initState Nat) fs0 Option.none "train" Option.none kwargs0 =
      ⟨Except.ok (), initState Nat, fs0, [Event.createModel] ++
        getModelHashEvents mc0 ++ [Event.getQueriesAndLabels]⟩ :=
  ⟨rfl, rfl, by decide,
   fit_single_class_noop env1 (initState Nat) fs0 Option.none "train"
     Option.none kwargs0 (.dict []) mc0 rfl rfl (Or.inl rfl) (by decide)⟩

/-- C1 (amended): when `previous_model_path` is given (and truthy) and its
sidecar digest equals the newly computed digest, `fit` performs a `load` from
that path and returns its outcome, leaving the file system unchanged; it never
invokes example loading via `_get_queries_and_labels` and never invokes model
fitting — but it does invoke model construction (`create_model`), once,
unconditionally before making the cache-hit decision, which the original claim
ruled out. -/
theorem fit_cache_hit_loads {Model Query Prob Eval : Type}
    (env : Env Model Query Prob Eval) (st : ClfState Model) (fs : FS Model)
    (queries : Option (List Query)) (label_set : String) (p : String)
    (kwargs : List (String × PyVal)) (lc : PyVal) (mc : ModelConfig)
    (hk : assocGet kwargs "loaded_config" = some lc)
    (hmc : getModelConfig env lc
      (kwargs.filter (fun kv => kv.1 != "loaded_config")) = Except.ok mc)
    (hp : p ≠ "")
    (hh : loadHash fs p = getModelHash env mc queries label_set) :
    fit env st fs queries label_set (some p) kwargs =
      ⟨(load env st fs p).1, (load env st fs p).2, fs,
       [Event.createModel] ++ getModelHashEvents mc ++ [Event.loadCalled p]⟩ ∧
    Event.getQueriesAndLabels ∉
      (fit env st fs queries label_set (some p) kwargs).trace ∧
    Event.modelFit ∉ (fit env st fs queries label_set (some p) kwargs).trace ∧
    Event.createModel ∈ (fit env st fs queries label_set (some p) kwargs).trace
    := by
  have h1 : fit env st fs queries label_set (some p) kwargs =
      ⟨(load env st fs p).1, (load env st fs p).2, fs,
       [Event.createModel] ++ getModelHashEvents mc ++ [Event.loadCalled p]⟩ := by
    simp [fit, hk, hmc, hp, hh]
  refine ⟨h1, ?_, ?_, ?_⟩
  · rw [h1]
    simp [getModelHashEvents]
  · rw [h1]
    simp [getModelHashEvents]
  · rw [h1]
    simp

/-- Counterexample to C1 as stated: a concrete cache-hit call (digest in the
sidecar of path `m` equals the newly computed digest, and `fit` indeed loads
from `m` and returns successfully) in which model construction — `create_model`,
which is not required to compute the digest — has nevertheless been invoked
before the cache-hit decision. -/
theorem fit_cache_hit_constructs_model_cex :
    loadHash fsHit "m" = getModelHash env0 mc0 Option.none "train" ∧
    (fit env0 (initState Nat) fsHit Option.none "train" (some "m")
      kwargs0).res = Except.ok () ∧
    Event.loadCalled "m" ∈
      (fit env0 (initState Nat) fsHit Option.none "train" (some "m")
        kwargs0).trace ∧
    Event.createModel ∈
      (fit env0 (initState Nat) fsHit Option.none "train" (some "m")
        kwargs0).trace :=
  ⟨rfl, rfl, by decide, by decide⟩

/-- C7 (amended): `load` raises `ClassifierLoadError` carrying the offending
path exactly when the deserializer fails with an `OSError`/`IOError` — which
covers a nonexistent or unreadable artifact file; an exception of any other
class raised by the deserializer (e.g. `EOFError` from a truncated or corrupt
pickle) propagates out of `load` unchanged, not as a `ClassifierLoadError`. -/
theorem load_error_translation {Model Query Prob Eval : Type}
    (env : Env Model Query Prob Eval) (st : ClfState Model) (fs : FS Model)
    (p : String) :
    (assocGet fs.blobs p = Option.none →
      load env st fs p =
        (Except.error (PyExc.classifierLoadError env.clsName p), st)) ∧
    (∀ e : PyExc, assocGet fs.blobs p = some (BlobEntry.raises e) →
      e.isOsOrIoError = true →
      load env st fs p =
        (Except.error (PyExc.classifierLoadError env.clsName p), st)) ∧
    (∀ e : PyExc, assocGet fs.blobs p = some (BlobEntry.raises e) →
      e.isOsOrIoError = false →
      load env st fs p = (Except.error e, st)) :=
  ⟨fun hb => by simp [load, hb],
   fun e hb he => by simp [load, hb, he],
   fun e hb he => by simp [load, hb, he]⟩

/-- Witness for C7 at a nonexistent path: `load` raises the designated error
carrying the path. -/
theorem load_error_translation_witness :
    assocGet fs0.blobs "m" = Option.none ∧
    load env0 (initState Nat) fs0 "m" =
      (Except.error (PyExc.classifierLoadError "Classifier" "m"),
       initState Nat) :=
  ⟨rfl, (load_error_translation env0 (initState Nat) fs0 "m").1 rfl⟩

/-- Counterexample to C7 as stated: at a truncated/corrupt artifact file the
deserializer raises `EOFError`, which `except (OSError, IOError)` does not
catch, so `load` lets `EOFError` escape instead of raising the designated
`ClassifierLoadError`. -/
theorem load_truncated_escapes_cex :
    (load env0 (initState Nat) fsCorrupt "m").1 = Except.error PyExc.eofError ∧
    ∀ c q : String,
      (load env0 (initState Nat) fsCorrupt "m").1 ≠
        Except.error (PyExc.classifierLoadError c q) :=
  ⟨rfl, fun _ _ h => nomatch h⟩

theorem fitMiss_inv {Model Query Prob Eval : Type}
    (env : Env Model Query Prob Eval) (st : ClfState Model) (fs : FS Model)
    (queries : Option (List Query)) (label_set : String) (nh : String)
    (model0 : Model) (tr : List Event) (hst : invB st = true)
    (hok : (fitMiss env st fs queries label_set nh model0 tr).res =
      Except.ok ()) :
    invB (fitMiss env st fs queries label_set nh model0 tr).st = true := by
  by_cases hone : numDistinct (env.getQueriesAndLabels queries label_set).2 ≤ 1
  · simpa [fitMiss, hone] using hst
  · rcases hfc : fromModelConfig (env.configOf (env.fitModel
        (env.initResourcesFit model0
          (env.getQueriesAndLabels queries label_set).1
          (env.getQueriesAndLabels queries label_set).2)
        (env.getQueriesAndLabels queries label_set).1
        (env.getQueriesAndLabels queries label_set).2)).cfgDict with e | cfg
    · simp [fitMiss, hone, hfc] at hok
    · simp [fitMiss, hone, hfc, invB]

/-- C6 (amended): the invariant "`ready` is true iff the artifact reference is
non-null" holds after construction and is preserved by `dump` from any state;
in a file system whose stored artifacts are all non-null, it is also preserved
by every execution of `load` and `fit` that returns normally.  (Unrestricted,
the claim is false: `dump` on an unfit controller stores a `None` artifact, and
a subsequent terminating `load` of it sets `ready` with a null artifact
reference — see the counterexample.) -/
theorem ready_iff_model_invariant {Model Query Prob Eval : Type}
    (env : Env Model Query Prob Eval) (st : ClfState Model) (fs : FS Model)
    (p : String) (queries : Option (List Query)) (label_set : String)
    (pmp : Option String) (kwargs : List (String × PyVal))
    (hfs : goodFS fs = true) (hst : invB st = true) :
    invB (initState Model) = true ∧
    invB (dump st fs p).1 = true ∧
    ((load env st fs p).1 = Except.ok () → invB (load env st fs p).2 = true) ∧
    ((fit env st fs queries label_set pmp kwargs).res = Except.ok () →
      invB (fit env st fs queries label_set pmp kwargs).st = true) := by
  refine ⟨rfl, ?_, fun hok => load_inv env st fs p hfs hok, ?_⟩
  · simpa [dump, invB] using hst
  · intro hok
    rcases hk : assocGet kwargs "loaded_config" with _ | lc
    · simp [fit, hk] at hok
    · rcases hmc : getModelConfig env lc
          (kwargs.filter (fun kv => kv.1 != "loaded_config")) with e | mc
      · simp [fit, hk, hmc] at hok
      · rcases pmp with _ | p2
        · have heq : fit env st fs queries label_set Option.none kwargs =
              fitMiss env st fs queries label_set
                (getModelHash env mc queries label_set) (env.createModel mc)
                ([Event.createModel] ++ getModelHashEvents mc) := by
            simp [fit, hk, hmc]
          rw [heq] at hok ⊢
          exact fitMiss_inv env st fs queries label_set _ _ _ hst hok
        · by_cases hpe : p2 = ""
          · subst hpe
            have heq : fit env st fs queries label_set (some "") kwargs =
                fitMiss env st fs queries label_set
                  (getModelHash env mc queries label_set) (env.createModel mc)
                  ([Event.createModel] ++ getModelHashEvents mc) := by
              simp [fit, hk, hmc]
            rw [heq] at hok ⊢
            exact fitMiss_inv env st fs queries label_set _ _ _ hst hok
          · by_cases hh : loadHash fs p2 =
                getModelHash env mc queries label_set
            · have heq : fit env st fs queries label_set (some p2) kwargs =
                  ⟨(load env st fs p2).1, (load env st fs p2).2, fs,
                   [Event.createModel] ++ getModelHashEvents mc ++
                     [Event.loadCalled p2]⟩ := by
                simp [fit, hk, hmc, hpe, hh]
              rw [heq] at hok ⊢
              exact load_inv env st fs p2 hfs hok
            · have heq : fit env st fs queries label_set (some p2) kwargs =
                  fitMiss env st fs queries label_set
                    (getModelHash env mc queries label_set) (env.createModel mc)
                    ([Event.createModel] ++ getModelHashEvents mc) := by
                simp [fit, hk, hmc, hpe, hh]
              rw [heq] at hok ⊢
              exact fitMiss_inv env st fs queries label_set _ _ _ hst hok

/-- Witness for C6 in a well-formed file system on a fresh controller. -/
theorem ready_iff_model_invariant_witness :
    goodFS fs0 = true ∧ invB (initState Nat) = true ∧
    (invB (initState Nat) = true ∧
     invB (dump (initState Nat) fs0 "m").1 = true ∧
     ((load env0 (initState Nat) fs0 "m").1 = Except.ok () →
       invB (load env0 (initState Nat) fs0 "m").2 = true) ∧
     ((fit env0 (initState Nat) fs0 Option.none "train" Option.none
         kwargs0).res = Except.ok () →
       invB (fit env0 (initState Nat) fs0 Option.none "train" Option.none
         kwargs0).st = true)) :=
  ⟨rfl, rfl,
   ready_iff_model_invariant env0 (initState Nat) fs0 "m" Option.none "train"
     Option.none kwargs0 rfl rfl⟩

/-- Counterexample to C6 as stated: from a fresh (invariant-satisfying,
unfit) controller, `dump` to path `m` stores a `None` artifact; a terminating
`load` of `m` from an invariant-satisfying state then returns normally with
`ready = true` while the artifact reference is null, violating the claimed
invariant preservation of `load`. -/
theorem ready_iff_model_invariant_cex :
    invB (initState Nat) = true ∧
    (load env0 (initState Nat) (dump (initState Nat) fs0 "m").2 "m").1 =
      Except.ok () ∧
    (load env0 (initState Nat) (dump (initState Nat) fs0 "m").2 "m").2.ready =
      true ∧
    (load env0 (initState Nat) (dump (initState Nat) fs0 "m").2 "m").2._model =
      (Option.none : Option Nat) :=
  ⟨rfl, rfl, rfl, rfl⟩

/-- C5: a successful `fit` followed by `dump(P)` and then `load(P)` on a freshly
constructed controller sharing the same collaborators ends with `ready = true`,
`dirty = false`, and `hash` equal to the digest the first controller held in
its `hash` attribute before the dump (the dumped artifact's configuration must
round-trip, since `load` re-derives `config` from it). -/
theorem fit_dump_load_roundtrip {Model Query Prob Eval : Type}
    (env : Env Model Query Prob Eval) (st : ClfState Model) (fs : FS Model)
    (queries : Option (List Query)) (label_set : String) (pmp : Option String)
    (kwargs : List (String × PyVal)) (P : String)
    (_hfit : (fit env st fs queries label_set pmp kwargs).res = Except.ok ())
    (hcfg : loadCfgOkB env
      (fit env st fs queries label_set pmp kwargs).st = true) :
    (load env (initState Model)
      (dump (fit env st fs queries label_set pmp kwargs).st
            (fit env st fs queries label_set pmp kwargs).fs P).2 P).1 =
      Except.ok () ∧
    (load env (initState Model)
      (dump (fit env st fs queries label_set pmp kwargs).st
            (fit env st fs queries label_set pmp kwargs).fs P).2 P).2.ready =
      true ∧
    (load env (initState Model)
      (dump (fit env st fs queries label_set pmp kwargs).st
            (fit env st fs queries label_set pmp kwargs).fs P).2 P).2.dirty =
      false ∧
    (load env (initState Model)
      (dump (fit env st fs queries label_set pmp kwargs).st
            (fit env st fs queries label_set pmp kwargs).fs P).2 P).2.hash =
      (fit env st fs queries label_set pmp kwargs).st.hash :=
  dump_then_load env _ _ _ P hcfg

/-- Witness for C5: the concrete fit-dump-load cycle on `env0`. -/
theorem fit_dump_load_roundtrip_witness :
    (fit env0 (initState Nat) fs0 Option.none "train" Option.none
      kwargs0).res = Except.ok () ∧
    loadCfgOkB env0
      (fit env0 (initState Nat) fs0 Option.none "train" Option.none
        kwargs0).st = true ∧
    ((load env0 (initState Nat)
      (dump (fit env0 (initState Nat) fs0 Option.none "train" Option.none
               kwargs0).st
            (fit env0 (initState Nat) fs0 Option.none "train" Option.none
               kwargs0).fs "m").2 "m").1 = Except.ok () ∧
     (load env0 (initState Nat)
      (dump (fit env0 (initState Nat) fs0 Option.none "train" Option.none
               kwargs0).st
            (fit env0 (initState Nat) fs0 Option.none "train" Option.none
               kwargs0).fs "m").2 "m").2.ready = true ∧
     (load env0 (initState Nat)
      (dump (fit env0 (initState Nat) fs0 Option.none "train" Option.none
               kwargs0).st
            (fit env0 (initState Nat) fs0 Option.none "train" Option.none
               kwargs0).fs "m").2 "m").2.dirty = false ∧
     (load env0 (initState Nat)
      (dump (fit env0 (initState Nat) fs0 Option.none "train" Option.none
               kwargs0).st
            (fit env0 (initState Nat) fs0 Option.none "train" Option.none
               kwargs0).fs "m").2 "m").2.hash =
      (fit env0 (initState Nat) fs0 Option.none "train" Option.none
        kwargs0).st.hash) :=
  ⟨rfl, rfl,
   fit_dump_load_roundtrip env0 (initState Nat) fs0 Option.none "train"
     Option.none kwargs0 "m" rfl rfl⟩

/-- Witness for C1 (amended) at a concrete cache hit: `fit` loads from `m`,
invokes no example loading and no model fitting, and has constructed a model. -/
theorem fit_cache_hit_loads_witness :
    assocGet kwargs0 "loaded_config" = some (.dict []) ∧
    getModelConfig env0 (.dict [])
      (kwargs0.filter (fun kv => kv.1 != "loaded_config")) = Except.ok mc0 ∧
    loadHash fsHit "m" = getModelHash env0 mc0 Option.none "train" ∧
    (fit env0 (initState Nat) fsHit Option.none "train" (some "m") kwargs0 =
      ⟨(load env0 (initState Nat) fsHit "m").1,
       (load env0 (initState Nat) fsHit "m").2, fsHit,
       [Event.createModel] ++ getModelHashEvents mc0 ++
         [Event.loadCalled "m"]⟩ ∧
     Event.getQueriesAndLabels ∉
       (fit env0 (initState Nat) fsHit Option.none "train" (some "m")
         kwargs0).trace ∧
     Event.modelFit ∉
       (fit env0 (initState Nat) fsHit Option.none "train" (some "m")
         kwargs0).trace ∧
     Event.createModel ∈
       (fit env0 (initState Nat) fsHit Option.none "train" (some "m")
         kwargs0).trace) :=
  ⟨rfl, rfl, rfl,
   fit_cache_hit_loads env0 (initState Nat) fsHit Option.none "train" "m"
     kwargs0 (.dict []) mc0 rfl rfl (by decide) rfl⟩
